import Mathlib

/-!
Shallow embedding of the chat-room client core of `src/App.tsx`
(repository `real-time-chat-app`).

The React component keeps its session state in `useState` hooks
(`name`, `messages`, `roomCode`, `connectionStatus`, `error`,
`currentMessage`, `participants`) plus a `useRef` transport handle
`wsRef`.  We model that state as a record `SessionState` and every
handler of the component (`connectToWebSocket`, the four WebSocket
callbacks, `sendMessage`, `leaveRoom`, the controlled-input setters)
as a pure function from state to state, returning in addition the
list of frames written to the transport by `ws.send`.

Conventions of the embedding:
* JavaScript `String.prototype.trim()` is modelled by `jsTrim`
  (drop ASCII whitespace from both ends of the character list).
* `JSON.parse` of an inbound text frame either throws (modelled as
  `none`) or yields a JSON value (modelled by the inductive `Json`).
  The `try/catch` of `ws.onmessage` means a parse failure is a no-op.
* `Date.now()` is passed to the message handler as a `now : Nat`
  parameter (the `timestamp` field of a chat message).
* `wsRef` records whether `wsRef.current` is non-null; `sock` records
  whether a WebSocket object with registered handlers exists whose
  `close` event has not yet fired.  `leaveRoom` nulls `wsRef` and calls
  `ws.close()` (recorded in `closeRequested`), but handler events queued
  on the event loop may still be delivered until the close event fires,
  so `sock` stays true until a `wsClose` event; transport events are
  gated on `sock` in the step relation.
* Payloads that violate the wire contract of §6 (e.g. a `user_list`
  whose payload is not an array of strings) would propagate `undefined`
  values in JavaScript; the typed embedding treats such frames as
  no-ops.  No claim depends on that corner.
-/

/-- JavaScript `trim` on the underlying character list: ASCII whitespace
is removed from both ends. -/
def jsTrimL (l : List Char) : List Char :=
  ((l.dropWhile Char.isWhitespace).reverse.dropWhile Char.isWhitespace).reverse

/-- JavaScript `String.prototype.trim()`. -/
def jsTrim (s : String) : String :=
  ⟨jsTrimL s.data⟩

/-- JavaScript `String.prototype.toUpperCase()`, character by character. -/
def jsToUpper (s : String) : String :=
  ⟨s.data.map Char.toUpper⟩

/-- JSON values, the image of a successful `JSON.parse`. -/
inductive Json where
  | null : Json
  | jbool (b : Bool) : Json
  | num (n : Int) : Json
  | str (s : String) : Json
  | arr (elems : List Json) : Json
  | obj (fields : List (String × Json)) : Json

/-- JavaScript property access `v.k` on a parsed value: a field lookup
that yields `none` when the value is not an object or lacks the key. -/
def Json.getField : Json → String → Option Json
  | .obj fields, k => fields.lookup k
  | _, _ => none

/-- Read a JSON value as a string (wire-contract decoding). -/
def Json.asString : Json → Option String
  | .str s => some s
  | _ => none

/-- Read a list of JSON values as a list of strings. -/
def Json.asStrings : List Json → Option (List String)
  | [] => some []
  | j :: rest =>
    match j.asString, Json.asStrings rest with
    | some s, some ss => some (s :: ss)
    | _, _ => none

/-- Read a JSON value as an array of strings (the `user_list` payload of
the wire contract). -/
def Json.asStringList : Json → Option (List String)
  | .arr es => Json.asStrings es
  | _ => none

/-- One entry of the `messages` state hook:
`{sender, text, timestamp}` (App.tsx lines 6-10). -/
structure ChatMessage where
  sender : String
  text : String
  timestamp : Nat
deriving DecidableEq, Repr

/-- The `connectionStatus` hook: `'disconnected' | 'connecting' | 'connected'`. -/
inductive ConnectionStatus where
  | disconnected : ConnectionStatus
  | connecting : ConnectionStatus
  | connected : ConnectionStatus
deriving DecidableEq, Repr

/-- Frames written to the transport by `ws.send` / `wsRef.current.send`,
one constructor per `JSON.stringify` call site in App.tsx. -/
inductive OutFrame where
  | join (roomId userName : String) : OutFrame
  | chat_message (roomId sender text : String) : OutFrame
  | leave (roomId userName : String) : OutFrame
deriving DecidableEq, Repr

/-- The display name an outbound frame carries on the wire
(`userName` for join/leave, `sender` for chat_message). -/
def OutFrame.wireUserName : OutFrame → String
  | .join _ u => u
  | .chat_message _ s _ => s
  | .leave _ u => u

/-- The component state: the seven `useState` hooks plus the `wsRef`
handle, the closure snapshot taken by the WebSocket callbacks, and the
transport bookkeeping described in the header comment. -/
structure SessionState where
  name : String
  messages : List ChatMessage
  roomCode : String
  connectionStatus : ConnectionStatus
  error : Option String
  currentMessage : String
  participants : List String
  wsRef : Bool
  sock : Bool
  closeRequested : Bool
  wsName : String
  wsRoom : String
deriving DecidableEq, Repr

/-- State at mount: all hooks empty, `disconnected`, no transport. -/
def initialState : SessionState where
  name := ""
  messages := []
  roomCode := ""
  connectionStatus := .disconnected
  error := none
  currentMessage := ""
  participants := []
  wsRef := false
  sock := false
  closeRequested := false
  wsName := ""
  wsRoom := ""

/-- `connectToWebSocket` (App.tsx lines 40-112) up to and including the
creation of the WebSocket: validation of `name` and `roomCode`, then
`setError(null)`, `setConnectionStatus('connecting')`, `new WebSocket`
with handler registration and `wsRef.current = ws`.  The handlers close
over the current `name` and `roomCode`, recorded in `wsName`/`wsRoom`.
No frame is sent here; the join frame is sent by the `open` handler. -/
def connectToWebSocket (s : SessionState) : SessionState × List OutFrame :=
  if jsTrim s.name = "" then
    ({ s with error := some "Please enter your name" }, [])
  else if jsTrim s.roomCode = "" ∨ s.roomCode.length ≠ 6 then
    ({ s with error := some "Please enter a valid 6-character room code" }, [])
  else
    ({ s with error := none, connectionStatus := .connecting,
              wsRef := true, sock := true, closeRequested := false,
              wsName := s.name, wsRoom := s.roomCode }, [])

/-- `ws.onopen` (lines 57-67): send the join frame with the captured
`roomCode` and `name.trim()`, then `setConnectionStatus('connected')`. -/
def ws_onopen (s : SessionState) : SessionState × List OutFrame :=
  ({ s with connectionStatus := .connected },
   [OutFrame.join s.wsRoom (jsTrim s.wsName)])

/-- `ws.onmessage` (lines 69-94): `JSON.parse` inside `try/catch`
(`none` = the parse threw, caught as a no-op), then a `switch` on
`parsedMessage.type` with cases `room_joined` (log only), `user_list`
(replace `participants` with the payload), `chat_message` (append
`{sender, text, timestamp: Date.now()}`), `error` (set `error` to
`payload.message`), and no default case. -/
def handleMessage (s : SessionState) (data : Option Json) (now : Nat) :
    SessionState :=
  match data with
  | none => s
  | some msg =>
    match msg.getField "type" with
    | some (Json.str t) =>
      if t = "room_joined" then
        s
      else if t = "user_list" then
        match (msg.getField "payload").bind Json.asStringList with
        | some ps => { s with participants := ps }
        | none => s
      else if t = "chat_message" then
        match (msg.getField "payload").bind
                (fun p => (p.getField "sender").bind Json.asString),
              (msg.getField "payload").bind
                (fun p => (p.getField "text").bind Json.asString) with
        | some sender, some text =>
          { s with messages := s.messages ++ [⟨sender, text, now⟩] }
        | _, _ => s
      else if t = "error" then
        match (msg.getField "payload").bind
                (fun p => (p.getField "message").bind Json.asString) with
        | some m => { s with error := some m }
        | none => s
      else
        s
    | _ => s

/-- `ws.onerror` (lines 96-100): force `disconnected`, set `error`. -/
def ws_onerror (s : SessionState) : SessionState :=
  { s with connectionStatus := .disconnected,
           error := some "Failed to connect to the room" }

/-- `ws.onclose` (lines 102-104): force `disconnected`, nothing else. -/
def ws_onclose (s : SessionState) : SessionState :=
  { s with connectionStatus := .disconnected }

/-- `sendMessage` (lines 114-128): gated on
`currentMessage.trim() && wsRef.current && connectionStatus === 'connected'`;
sends one `chat_message` frame with the untrimmed `name` as sender and
the trimmed text, then clears `currentMessage`.  Nothing is appended to
`messages`. -/
def sendMessage (s : SessionState) : SessionState × List OutFrame :=
  if jsTrim s.currentMessage ≠ "" ∧ s.wsRef = true ∧
      s.connectionStatus = .connected then
    ({ s with currentMessage := "" },
     [OutFrame.chat_message s.roomCode s.name (jsTrim s.currentMessage)])
  else
    (s, [])

/-- `leaveRoom` (lines 130-146): gated on `wsRef.current`; sends one
`leave` frame with the untrimmed `name`, calls `ws.close()`, nulls
`wsRef.current`, sets `disconnected`, clears `messages` and
`participants`.  `roomCode` is not touched. -/
def leaveRoom (s : SessionState) : SessionState × List OutFrame :=
  if s.wsRef = true then
    ({ s with wsRef := false, closeRequested := true,
              connectionStatus := .disconnected,
              messages := [], participants := [] },
     [OutFrame.leave s.roomCode s.name])
  else
    (s, [])

/-- The external events that drive the component: the three controlled
inputs, the join / send / leave intents (button clicks), and the four
transport events.  `setRoomCode` applies `.toUpperCase()` as the input
handler does (line 201). -/
inductive Event where
  | setName (v : String) : Event
  | setRoomCode (v : String) : Event
  | setCurrentMessage (v : String) : Event
  | joinIntent : Event
  | wsOpen : Event
  | wsMessage (data : Option Json) (now : Nat) : Event
  | wsError : Event
  | wsClose : Event
  | sendIntent : Event
  | leaveIntent : Event

/-- One step of the event-driven session: transport events can only be
delivered while a handler-bearing socket exists (`sock`); the close
event is the last event a socket delivers. -/
def step (s : SessionState) : Event → SessionState × List OutFrame
  | .setName v => ({ s with name := v }, [])
  | .setRoomCode v => ({ s with roomCode := jsToUpper v }, [])
  | .setCurrentMessage v => ({ s with currentMessage := v }, [])
  | .joinIntent => connectToWebSocket s
  | .wsOpen => if s.sock then ws_onopen s else (s, [])
  | .wsMessage data now =>
      if s.sock then (handleMessage s data now, []) else (s, [])
  | .wsError => if s.sock then (ws_onerror s, []) else (s, [])
  | .wsClose =>
      if s.sock then ({ ws_onclose s with sock := false }, []) else (s, [])
  | .sendIntent => sendMessage s
  | .leaveIntent => leaveRoom s

/-- Run a list of events from the initial state, accumulating the
outbound frames.  A state is reachable iff it is `(run t).1` for some
event trace `t`. -/
def run (events : List Event) : SessionState × List OutFrame :=
  events.foldl (fun acc e => ((step acc.1 e).1, acc.2 ++ (step acc.1 e).2))
    (initialState, [])

/-- A room code as the spec's §3 and §6 describe it: exactly six
characters, each an uppercase letter or a digit. -/
def isValidRoomCode (c : String) : Bool :=
  c.length = 6 && c.data.all (fun ch => ch.isUpper || ch.isDigit)

/-- The inbound frame types recognized by the `switch` of `ws.onmessage`;
`none` (a parse failure) is not recognized. -/
def recognizedFrameType (data : Option Json) : Bool :=
  match data with
  | none => false
  | some msg =>
    match msg.getField "type" with
    | some (Json.str t) =>
      t = "room_joined" ∨ t = "user_list" ∨ t = "chat_message" ∨ t = "error"
    | _ => false

/-- The wire shape of a `user_list` frame with the given names. -/
def userListJson (ps : List String) : Json :=
  Json.obj [("type", Json.str "user_list"),
            ("payload", Json.arr (ps.map Json.str))]

/-- The wire shape of a `chat_message` frame. -/
def chatJson (sender text : String) : Json :=
  Json.obj [("type", Json.str "chat_message"),
            ("payload", Json.obj [("sender", Json.str sender),
                                  ("text", Json.str text)])]

/-- The wire shape of a `room_joined` acknowledgment. -/
def roomJoinedJson : Json :=
  Json.obj [("type", Json.str "room_joined")]

/-! ## Helper lemmas -/

/-- `dropWhile` is the identity on a list none of whose elements satisfy
the predicate. -/
theorem dropWhile_id_of_not (p : Char → Bool) (l : List Char)
    (h : ∀ c ∈ l, p c = false) : l.dropWhile p = l := by
  cases l with
  | nil => rfl
  | cons a l => simp [List.dropWhile, h a (by simp)]

/-- `jsTrimL` is the identity on whitespace-free character lists. -/
theorem jsTrimL_eq_self (l : List Char)
    (h : ∀ c ∈ l, c.isWhitespace = false) : jsTrimL l = l := by
  unfold jsTrimL
  rw [dropWhile_id_of_not _ _ h, dropWhile_id_of_not, List.reverse_reverse]
  intro c hc
  exact h c (by simpa using hc)

/-- `jsTrim` is the identity on whitespace-free strings. -/
theorem jsTrim_eq_self (s : String)
    (h : ∀ c ∈ s.data, c.isWhitespace = false) : jsTrim s = s := by
  unfold jsTrim
  rw [jsTrimL_eq_self s.data h]

/-- Uppercase letters and digits are not whitespace. -/
theorem not_whitespace_of_upper_or_digit (c : Char)
    (h : (c.isUpper || c.isDigit) = true) : c.isWhitespace = false := by
  cases hw : c.isWhitespace with
  | false => rfl
  | true =>
    exfalso
    simp only [Char.isWhitespace, Bool.or_eq_true, decide_eq_true_eq] at hw
    rcases hw with ((h1 | h1) | h1) | h1 <;> subst h1 <;>
      exact absurd h (by decide)

/-- A well-formed room code is untouched by `trim` and has length 6. -/
theorem validRoomCode_trim (c : String) (h : isValidRoomCode c = true) :
    jsTrim c = c ∧ c.length = 6 := by
  unfold isValidRoomCode at h
  rw [Bool.and_eq_true] at h
  obtain ⟨h1, h2⟩ := h
  rw [List.all_eq_true] at h2
  refine ⟨jsTrim_eq_self c ?_, by simpa using h1⟩
  intro ch hc
  exact not_whitespace_of_upper_or_digit ch (h2 ch hc)

/-- Decoding an array of JSON strings yields exactly those strings. -/
theorem asStrings_map_str (ps : List String) :
    Json.asStrings (ps.map Json.str) = some ps := by
  induction ps with
  | nil => rfl
  | cons a ps ih => simp [Json.asStrings, Json.asString, ih]

/-- The event trace used by the concrete scenarios: enter a name and a
well-formed room code, then click Join. -/
def joinTrace : List Event :=
  [Event.setName "alice", Event.setRoomCode "ABC123", Event.joinIntent]

/-! ## Claim theorems -/

/-- C1: the claim says `connectionStatus` becomes Connected only after a
`room_joined` acknowledgment frame, never on the transport's local open
event alone.  The code does the opposite: after a valid join the state
is Connecting, the bare `open` event (no `room_joined` received at any
point of the trace) already yields Connected, and handling a
`room_joined` frame in the Connecting state is a pure no-op (its switch
case only logs).  This exhibits the latent defect the spec flags in §9;
the claim states the intended contract, the code violates it. -/
theorem room_ack_not_required_for_connected :
    (run joinTrace).1.connectionStatus = ConnectionStatus.connecting ∧
    (run (joinTrace ++ [Event.wsOpen])).1.connectionStatus
      = ConnectionStatus.connected ∧
    step (run joinTrace).1 (Event.wsMessage (some roomJoinedJson) 0)
      = ((run joinTrace).1, []) := by
  decide

/-- C2 counterexample: the trace join → open → inbound chat message →
transport close ends in a reachable state whose `connectionStatus` is
Disconnected while `messages` is nonempty: the close handler only sets
the status and clears nothing, refuting both the invariant and the
reset-on-close part of the claim. -/
theorem disconnected_with_messages_reachable :
    (run (joinTrace ++ [Event.wsOpen,
        Event.wsMessage (some (chatJson "bob" "hi")) 5])).1.connectionStatus
      = ConnectionStatus.connected ∧
    (run (joinTrace ++ [Event.wsOpen,
        Event.wsMessage (some (chatJson "bob" "hi")) 5,
        Event.wsClose])).1.connectionStatus = ConnectionStatus.disconnected ∧
    (run (joinTrace ++ [Event.wsOpen,
        Event.wsMessage (some (chatJson "bob" "hi")) 5,
        Event.wsClose])).1.messages = [⟨"bob", "hi", 5⟩] := by
  decide

/-- C2 amended: a transport close event only forces Disconnected and a
transport error event additionally sets `lastError`; neither clears
`participants` or `messages` — only `leaveRoom` resets them to empty. -/
theorem close_error_preserve_messages (s : SessionState)
    (h : s.sock = true) :
    step s Event.wsClose
      = ({ s with connectionStatus := .disconnected, sock := false }, []) ∧
    step s Event.wsError
      = ({ s with connectionStatus := .disconnected,
                  error := some "Failed to connect to the room" }, []) ∧
    (s.wsRef = true →
      (leaveRoom s).1.messages = [] ∧ (leaveRoom s).1.participants = []) := by
  refine ⟨?_, ?_, fun hw => ?_⟩
  · simp [step, ws_onclose, h]
  · simp [step, ws_onerror, h]
  · simp [leaveRoom, hw]

/-- A concrete connected state with a live transport, used to
instantiate the universally quantified theorems. -/
def probeConnected : SessionState :=
  { initialState with sock := true, wsRef := true,
                      connectionStatus := .connected }

/-- C2 amended, witness at a concrete connected state. -/
theorem close_error_preserve_messages_witness :
    (step probeConnected Event.wsClose).1.connectionStatus
      = ConnectionStatus.disconnected ∧
    (leaveRoom probeConnected).1.messages = [] := by
  have h := close_error_preserve_messages probeConnected rfl
  exact ⟨by rw [h.1], (h.2.2 rfl).1⟩

/-- The state right before clicking Join with name `"alice"` and room
code `"ABCDE "` (five letters and a trailing space: length 6, but the
trimmed form has length 5). -/
def untrimmedInput : SessionState :=
  { initialState with name := "alice", roomCode := "ABCDE " }

/-- The state `connectToWebSocket` produces from `untrimmedInput`. -/
def untrimmedResult : SessionState :=
  { untrimmedInput with error := none, connectionStatus := .connecting,
                        wsRef := true, sock := true,
                        wsName := "alice", wsRoom := "ABCDE " }

/-- C3 counterexample: the code validates the UNtrimmed room code length
(`roomCode.length !== 6`).  For name `"alice"` and code `"ABCDE "`
(trimmed form of length 5) the claim demands a ValidationError with no
transport action, but validation passes: the state moves to Connecting,
`lastError` is cleared and a transport is opened. -/
theorem untrimmed_code_passes_validation :
    jsTrim "ABCDE " = "ABCDE" ∧
    (jsTrim "ABCDE ").length = 5 ∧
    connectToWebSocket untrimmedInput = (untrimmedResult, []) := by
  decide

/-- C3 amended: join fails with a ValidationError — `lastError` set,
status still Disconnected, no transport opened, no frame sent — exactly
when the trimmed name is empty, or the trimmed code is empty, or the
UNtrimmed code's length is not 6 (the code checks `roomCode.length`,
not the trimmed length). -/
theorem join_validation_rejects (s : SessionState)
    (hd : s.connectionStatus = ConnectionStatus.disconnected)
    (h : jsTrim s.name = "" ∨ jsTrim s.roomCode = "" ∨ s.roomCode.length ≠ 6) :
    (connectToWebSocket s).2 = [] ∧
    (connectToWebSocket s).1.error.isSome = true ∧
    (connectToWebSocket s).1.connectionStatus
      = ConnectionStatus.disconnected ∧
    (connectToWebSocket s).1.wsRef = s.wsRef ∧
    (connectToWebSocket s).1.sock = s.sock := by
  unfold connectToWebSocket
  rcases h with h | h
  · simp [h, hd]
  · by_cases hn : jsTrim s.name = ""
    · simp [hn, hd]
    · simp [hn, h, hd]

/-- C3 amended, witness: the empty name at the initial state. -/
theorem join_validation_rejects_witness :
    (connectToWebSocket initialState).1.error.isSome = true ∧
    (connectToWebSocket initialState).1.connectionStatus
      = ConnectionStatus.disconnected ∧
    (connectToWebSocket initialState).2 = [] := by
  have h := join_validation_rejects initialState rfl (Or.inl (by decide))
  exact ⟨h.2.1, h.2.2.1, h.1⟩

/-- C4: for every state at Disconnected whose name trims nonempty and
whose room code is a well-formed 6-character uppercase-alphanumeric
string, the join intent moves the status to Connecting, clears
`lastError`, sends nothing yet, and the subsequent transport-open event
sends exactly one `join` frame `{roomId: code, userName: trimmedName}`
with the exact code and the trimmed name. -/
theorem valid_join_connecting_single_frame (s : SessionState)
    (hd : s.connectionStatus = ConnectionStatus.disconnected)
    (hn : jsTrim s.name ≠ "")
    (hc : isValidRoomCode s.roomCode = true) :
    (connectToWebSocket s).2 = [] ∧
    (connectToWebSocket s).1.connectionStatus
      = ConnectionStatus.connecting ∧
    (connectToWebSocket s).1.error = none ∧
    (step (connectToWebSocket s).1 Event.wsOpen).2
      = [OutFrame.join s.roomCode (jsTrim s.name)] ∧
    (step (connectToWebSocket s).1 Event.wsOpen).1.connectionStatus
      = ConnectionStatus.connected := by
  obtain ⟨ht, hl⟩ := validRoomCode_trim s.roomCode hc
  have hne : jsTrim s.roomCode ≠ "" := by
    rw [ht]
    intro h0
    rw [h0] at hl
    simp [String.length] at hl
  unfold connectToWebSocket
  rw [if_neg hn, if_neg (by push_neg; exact ⟨hne, hl⟩)]
  simp [step, ws_onopen]

/-- C4, witness: name `" mayank "` (trimmed on the wire) and room code
`"ABC123"`. -/
theorem valid_join_connecting_single_frame_witness :
    (connectToWebSocket
        { initialState with name := " mayank ", roomCode := "ABC123" }).2
      = [] ∧
    (step (connectToWebSocket
        { initialState with name := " mayank ", roomCode := "ABC123" }).1
      Event.wsOpen).2 = [OutFrame.join "ABC123" "mayank"] := by
  have h := valid_join_connecting_single_frame
    { initialState with name := " mayank ", roomCode := "ABC123" }
    rfl (by decide) (by decide)
  refine ⟨h.1, ?_⟩
  rw [h.2.2.2.1]
  decide

/-- C5 counterexample: leave while Connected (a hard cancellation),
then a late `user_list` frame still queued on the event loop.  Before
the frame the state is Disconnected with empty participants; the claim
says the frame is ignored, but handling it replaces `participants` with
`["alice", "bob"]` because `ws.onmessage` never consults
`connectionStatus`. -/
theorem late_frame_after_leave_mutates_state :
    (run (joinTrace ++ [Event.wsOpen, Event.leaveIntent])).1.connectionStatus
      = ConnectionStatus.disconnected ∧
    (run (joinTrace ++ [Event.wsOpen, Event.leaveIntent])).1.participants
      = [] ∧
    (run (joinTrace ++ [Event.wsOpen, Event.leaveIntent,
        Event.wsMessage (some (userListJson ["alice", "bob"])) 7])).1.participants
      = ["alice", "bob"] := by
  decide

/-- C5 amended: the message handler never consults `connectionStatus`,
so frames arriving after the state is Disconnected are NOT ignored: a
late `user_list` still replaces `participants`, a late `chat_message`
still appends to `messages`, and only `room_joined` leaves the state
unchanged (its case merely logs). -/
theorem inbound_frames_ignore_status (s : SessionState) (ps : List String)
    (sender text : String) (now : Nat)
    (hd : s.connectionStatus = ConnectionStatus.disconnected) :
    (handleMessage s (some (userListJson ps)) now).participants = ps ∧
    (handleMessage s (some (chatJson sender text)) now).messages
      = s.messages ++ [⟨sender, text, now⟩] ∧
    handleMessage s (some roomJoinedJson) now = s := by
  refine ⟨?_, ?_, ?_⟩ <;>
    simp [handleMessage, userListJson, chatJson, roomJoinedJson,
          Json.getField, List.lookup, Json.asStringList, asStrings_map_str,
          Json.asString]

/-- C5 amended, witness at the disconnected initial state. -/
theorem inbound_frames_ignore_status_witness :
    (handleMessage initialState (some (userListJson ["carol"])) 0).participants
      = ["carol"] ∧
    (handleMessage initialState (some (chatJson "bob" "yo")) 4).messages
      = [⟨"bob", "yo", 4⟩] := by
  have h := inbound_frames_ignore_status initialState ["carol"] "bob" "yo" 4 rfl
  exact ⟨(inbound_frames_ignore_status initialState ["carol"] "bob" "yo" 0 rfl).1,
    by simpa using h.2.1⟩

/-- C6: `sendMessage` produces no outbound frame when the trimmed text
is empty, when no transport handle exists, or when the status is not
Connected; in every case the local `messages` list is untouched (no
local echo); and when all three gates hold it produces exactly one
`chat_message` frame carrying the trimmed text. -/
theorem send_gating_no_echo (s : SessionState) :
    ((jsTrim s.currentMessage = "" ∨ s.wsRef = false ∨
        s.connectionStatus ≠ ConnectionStatus.connected) →
      sendMessage s = (s, [])) ∧
    (sendMessage s).1.messages = s.messages ∧
    (jsTrim s.currentMessage ≠ "" → s.wsRef = true →
      s.connectionStatus = ConnectionStatus.connected →
      (sendMessage s).2
        = [OutFrame.chat_message s.roomCode s.name
            (jsTrim s.currentMessage)]) := by
  refine ⟨fun h => ?_, ?_, fun h1 h2 h3 => ?_⟩
  · unfold sendMessage
    rw [if_neg]
    rintro ⟨g1, g2, g3⟩
    rcases h with h | h | h
    · exact g1 h
    · rw [h] at g2; cases g2
    · exact h g3
  · unfold sendMessage
    split <;> rfl
  · unfold sendMessage
    rw [if_pos ⟨h1, h2, h3⟩]

/-- A connected state in room `"ABC123"` as user `"al"` with the draft
text `" hi "` in the input box. -/
def probeTyping : SessionState :=
  { probeConnected with currentMessage := " hi ", roomCode := "ABC123", name := "al" }

/-- C6, witness: whitespace-only text sends nothing in the connected
state, and text `" hi "` sends one frame with the trimmed text while
`messages` stays empty. -/
theorem send_gating_no_echo_witness :
    sendMessage { probeConnected with currentMessage := "   " }
      = ({ probeConnected with currentMessage := "   " }, []) ∧
    (sendMessage probeTyping).2
      = [OutFrame.chat_message "ABC123" "al" "hi"] ∧
    (sendMessage probeTyping).1.messages = [] := by
  refine ⟨(send_gating_no_echo _).1 (Or.inl (by decide)), ?_, ?_⟩
  · have h := (send_gating_no_echo probeTyping).2.2 (by decide) rfl rfl
    rw [h]
    decide
  · exact (send_gating_no_echo probeTyping).2.1

/-- C7 counterexample: after join → open → leave, the status is
Disconnected (the leave ran while Connected), yet `roomCode` still
holds `"ABC123"`: `leaveRoom` never calls `setRoomCode`, so the room
code is NOT cleared as the claim demands. -/
theorem leave_retains_roomCode :
    (run (joinTrace ++ [Event.wsOpen])).1.connectionStatus
      = ConnectionStatus.connected ∧
    (run (joinTrace ++ [Event.wsOpen, Event.leaveIntent])).1.connectionStatus
      = ConnectionStatus.disconnected ∧
    (run (joinTrace ++ [Event.wsOpen, Event.leaveIntent])).1.roomCode
      = "ABC123" := by
  decide

/-- C7 amended: leave while Connected sends exactly one `leave` frame,
requests the transport close, resets `messages` and `participants` to
empty and the status to Disconnected — but `roomCode` is retained, not
cleared — and a second consecutive leave is a no-op because the
transport handle is now null. -/
theorem leave_effects_idempotent (s : SessionState)
    (hc : s.connectionStatus = ConnectionStatus.connected)
    (hw : s.wsRef = true) :
    (leaveRoom s).2 = [OutFrame.leave s.roomCode s.name] ∧
    (leaveRoom s).1.connectionStatus = ConnectionStatus.disconnected ∧
    (leaveRoom s).1.messages = [] ∧
    (leaveRoom s).1.participants = [] ∧
    (leaveRoom s).1.wsRef = false ∧
    (leaveRoom s).1.closeRequested = true ∧
    (leaveRoom s).1.roomCode = s.roomCode ∧
    leaveRoom (leaveRoom s).1 = ((leaveRoom s).1, []) := by
  unfold leaveRoom
  rw [if_pos hw]
  simp

/-- C7 amended, witness at a concrete connected state in room
`"ABC123"`. -/
theorem leave_effects_idempotent_witness :
    (leaveRoom { probeConnected with roomCode := "ABC123", name := "al" }).2
      = [OutFrame.leave "ABC123" "al"] ∧
    (leaveRoom { probeConnected with roomCode := "ABC123", name := "al" }).1.roomCode
      = "ABC123" := by
  have h := leave_effects_idempotent
    { probeConnected with roomCode := "ABC123", name := "al" } rfl rfl
  exact ⟨h.1, h.2.2.2.2.2.2.1⟩

/-- C8: a `user_list` frame delivered while Connecting or Connected
replaces `participants` wholesale with exactly the payload array; no
other field changes and nothing of the prior list survives (the handler
assigns the payload, performing no client-side merge). -/
theorem user_list_replaces_participants (s : SessionState)
    (ps : List String) (now : Nat) (hs : s.sock = true)
    (hc : s.connectionStatus = ConnectionStatus.connecting ∨
          s.connectionStatus = ConnectionStatus.connected) :
    step s (Event.wsMessage (some (userListJson ps)) now)
      = ({ s with participants := ps }, []) := by
  simp [step, hs, handleMessage, userListJson, Json.getField, List.lookup,
        Json.asStringList, asStrings_map_str]

/-- C8, witness: `["alice", "bob"]` received in the connected state
reached by join → open, whose prior participants list is empty. -/
theorem user_list_replaces_participants_witness :
    (step (run (joinTrace ++ [Event.wsOpen])).1
        (Event.wsMessage (some (userListJson ["alice", "bob"])) 3)).1.participants
      = ["alice", "bob"] := by
  have h := user_list_replaces_participants
    (run (joinTrace ++ [Event.wsOpen])).1 ["alice", "bob"] 3
    (by decide) (Or.inr (by decide))
  rw [h]

/-- C9: an inbound text frame that fails to parse as JSON, or whose
`type` is not one of the values recognized by the switch, is a complete
no-op: the handler (a total function, so it cannot throw) returns the
state unchanged — `messages`, `participants`, `connectionStatus` and
`lastError` all keep their values, in every connection state. -/
theorem unrecognized_frame_noop (s : SessionState) (data : Option Json)
    (now : Nat) (h : recognizedFrameType data = false) :
    handleMessage s data now = s := by
  cases data with
  | none => rfl
  | some msg =>
    cases hm : msg.getField "type" with
    | none => simp [handleMessage, hm]
    | some j =>
      cases j with
      | null => simp [handleMessage, hm]
      | jbool b => simp [handleMessage, hm]
      | num n => simp [handleMessage, hm]
      | arr es => simp [handleMessage, hm]
      | obj fs => simp [handleMessage, hm]
      | str t =>
        simp only [recognizedFrameType] at h
        rw [hm] at h
        simp only [decide_eq_false_iff_not, not_or] at h
        obtain ⟨h1, h2, h3, h4⟩ := h
        simp [handleMessage, hm, h1, h2, h3, h4]

/-- C9, witness: the unrecognized frame `{type: "ping"}` received while
Connected changes nothing. -/
theorem unrecognized_frame_noop_witness :
    recognizedFrameType (some (Json.obj [("type", Json.str "ping")])) = false ∧
    handleMessage probeConnected
        (some (Json.obj [("type", Json.str "ping")])) 0
      = probeConnected := by
  exact ⟨by decide, unrecognized_frame_noop probeConnected _ 0 (by decide)⟩

/-- C10: the join frame carries the trimmed name as `userName` (the
open handler sends `name.trim()`), while `chat_message` carries the raw
`name` as `sender` and `leave` carries the raw `name` as `userName`; so
for any session whose name has surrounding whitespace, the display name
on the wire differs between the join frame and the later frames. -/
theorem join_frame_trims_name_others_do_not (s : SessionState)
    (hcap : s.wsName = s.name)
    (hne : jsTrim s.name ≠ s.name)
    (hw : s.wsRef = true)
    (hc : s.connectionStatus = ConnectionStatus.connected)
    (hm : jsTrim s.currentMessage ≠ "") :
    (ws_onopen s).2 = [OutFrame.join s.wsRoom (jsTrim s.name)] ∧
    (sendMessage s).2
      = [OutFrame.chat_message s.roomCode s.name (jsTrim s.currentMessage)] ∧
    (leaveRoom s).2 = [OutFrame.leave s.roomCode s.name] ∧
    (OutFrame.join s.wsRoom (jsTrim s.name)).wireUserName
      ≠ (OutFrame.chat_message s.roomCode s.name
          (jsTrim s.currentMessage)).wireUserName ∧
    (OutFrame.join s.wsRoom (jsTrim s.name)).wireUserName
      ≠ (OutFrame.leave s.roomCode s.name).wireUserName := by
  refine ⟨?_, ?_, ?_, ?_, ?_⟩
  · simp [ws_onopen, hcap]
  · unfold sendMessage
    rw [if_pos ⟨hm, hw, hc⟩]
  · unfold leaveRoom
    rw [if_pos hw]
  · simpa [OutFrame.wireUserName] using hne
  · simpa [OutFrame.wireUserName] using hne

/-- A connected session whose user typed the name `" alice "` with
surrounding whitespace. -/
def probePadded : SessionState :=
  { probeConnected with name := " alice ", wsName := " alice ",
                        wsRoom := "ABC123", roomCode := "ABC123",
                        currentMessage := "hey " }

/-- C10, witness: with name `" alice "`, the join frame says `"alice"`
while the chat and leave frames say `" alice "`. -/
theorem join_frame_trims_name_others_do_not_witness :
    (ws_onopen probePadded).2 = [OutFrame.join "ABC123" "alice"] ∧
    (sendMessage probePadded).2
      = [OutFrame.chat_message "ABC123" " alice " "hey"] ∧
    (leaveRoom probePadded).2 = [OutFrame.leave "ABC123" " alice "] := by
  have h := join_frame_trims_name_others_do_not probePadded
    rfl (by decide) rfl rfl (by decide)
  refine ⟨?_, ?_, ?_⟩
  · rw [h.1]; decide
  · rw [h.2.1]; decide
  · rw [h.2.2.1]; decide
